import Mathlib

/-!
Shallow embedding of the immers-client protocol/state-derivation layer:
the low-level `Activities` ActivityPub client (src/source/activities.js) and
the high-level `ImmersClient` state derivers and presence lifecycle
(src/unnamed/part_001).

JavaScript modelling conventions used throughout:
  - optional / possibly-`undefined` string fields are `Option String`
    (`none` = absent/undefined);
  - JS truthiness of a string value is `truthyStr` (undefined and the empty
    string are falsy);
  - `a || b` on strings is `jsOr`, string interpolation of a possibly
    undefined value is `jsShow` (JS renders `undefined` as "undefined");
  - `String.prototype.startsWith` is `jsStartsWith`,
    `String.prototype.toLowerCase` is `jsToLower`, and JS `>` on strings is
    the lexicographic `strLtb`/`jsGT` (all on the underlying char lists so
    they evaluate in the kernel);
  - values that may be `undefined`, a string IRI, or an object are `JVal`;
  - thrown JS exceptions are the `Except JsErr` monad;
  - network I/O is an explicit oracle `net : NetReq → NetResp` and every
    function that can fetch also returns the list of requests it issued;
  - JS arrays that matter for aliasing (the `to` arrays of the media
    builders) live in an explicit array store `ArrStore`, so that `slice`
    (copy) versus aliasing is observable;
  - `Date` values are kept as their source strings;
  - the external DOMPurify sanitizer collaborator is an explicit
    `sanitize : String → String` parameter.
-/

/-- Kinds of JS exception raised by the modelled code: `typeError` for a
property access or destructuring on `undefined`, `urlError` for a throwing
`new URL(...)`, the rest for the client's own thrown `Error`s. -/
inductive JsErr where
  | typeError
  | urlError
  | fetchError (iri : String)
  | unsupportedCapability
  | invalidOutbox
  | remoteError (status : Nat)
  | callerState
deriving Repr, DecidableEq

/-- JS truthiness of a possibly undefined string: undefined and "" are falsy. -/
def truthyStr : Option String → Bool
  | none => false
  | some s => !(s == "")

/-- JS `a || b` for possibly undefined strings. -/
def jsOr (a b : Option String) : Option String := if truthyStr a then a else b

/-- JS template-literal rendering of a possibly undefined string:
`undefined` interpolates as the text "undefined". -/
def jsShow (v : Option String) : String := v.getD "undefined"

/-- Model of `String.prototype.startsWith` (prefix of the char sequence). -/
def jsStartsWith (s p : String) : Bool := p.data.isPrefixOf s.data

/-- Model of `String.prototype.toLowerCase`, written over the char list so
that it evaluates in the kernel. -/
def jsToLower (s : String) : String := ⟨s.data.map Char.toLower⟩

/-- Lexicographic strict less-than on char lists: the model of JS `<`/`>`
comparison of strings. -/
def strLtb : List Char → List Char → Bool
  | [], [] => false
  | [], _ :: _ => true
  | _ :: _, [] => false
  | a :: as, b :: bs => if a < b then true else if b < a then false else strLtb as bs

/-- JS `a > b` on possibly undefined strings: any comparison involving
`undefined` is false; two strings compare lexicographically. -/
def jsGT (a b : Option String) : Bool :=
  match a, b with
  | some x, some y => strLtb y.data x.data
  | _, _ => false

/-- Index of the first occurrence of "://" in a char list, if any. -/
def findSep : List Char → Option Nat
  | ':' :: '/' :: '/' :: _ => some 0
  | _ :: rest => (findSep rest).map (· + 1)
  | [] => none

/-- Core of the modelled WHATWG URL parser, restricted to hierarchical URLs:
requires a nonempty scheme followed by "://" and a nonempty authority; returns
the scheme length and the authority chars (up to the first path, query or
fragment delimiter). Fails (models a throwing `new URL(...)`) otherwise. -/
def urlHostChars (cs : List Char) : Option (Nat × List Char) :=
  match findSep cs with
  | none => none
  | some k =>
    if k = 0 then none
    else
      let host := (cs.drop (k + 3)).takeWhile fun c => !(c == '/' || c == '?' || c == '#')
      if host.isEmpty then none else some (k, host)

/-- Model of `new URL(s).host`: the authority component, or `none` when URL
construction throws. -/
def urlHost (s : String) : Option String :=
  (urlHostChars s.data).map fun kh => ⟨kh.2⟩

/-- Modelled from the spec: the origin of a resource identifier, the
"scheme://host" part the spec's Trust Router contract compares against the
home/local server origins. Spec-side definition used to compare the source's
`trustedIRI` against the spec's origin-matching contract. -/
def URLOrigin (s : String) : Option String :=
  (urlHostChars s.data).map fun kh => ⟨s.data.take (kh.1 + 3 + kh.2.length)⟩

/-- Fields of a JS object appearing in actor/object/target position that the
client reads. The `icon`/`avatar` link values are modelled by their resolved
URL strings (what `ImmersClient.URLFromProperty` extracts). -/
structure JObj where
  id : Option String := none
  name : Option String := none
  url : Option String := none
  content : Option String := none
  type : Option String := none
  preferredUsername : Option String := none
  icon : Option String := none
  avatar : Option String := none
deriving Repr, DecidableEq

/-- A JS value in actor/object/target position: `undefined`, a string IRI, or
an object. -/
inductive JVal where
  | undef
  | jstr (s : String)
  | jobj (o : JObj)
deriving Repr, DecidableEq

/-- Optional chaining `v?.id`. -/
def JVal.idOpt : JVal → Option String
  | .jobj o => o.id
  | _ => none

/-- Optional chaining `v?.name`. -/
def JVal.nameOpt : JVal → Option String
  | .jobj o => o.name
  | _ => none

/-- Optional chaining `v?.url`. -/
def JVal.urlOpt : JVal → Option String
  | .jobj o => o.url
  | _ => none

/-- Optional chaining `v?.content`. -/
def JVal.contentOpt : JVal → Option String
  | .jobj o => o.content
  | _ => none

/-- Optional chaining `v?.type`. -/
def JVal.typeOpt : JVal → Option String
  | .jobj o => o.type
  | _ => none

/-- Plain (non-optional-chained) property access `v.id`: throws a TypeError on
`undefined`; on a string value the property is absent, giving `undefined`. -/
def JVal.idStrict : JVal → Except JsErr (Option String)
  | .undef => .error .typeError
  | .jstr _ => .ok none
  | .jobj o => .ok o.id

/-- The Immers profile record derived from an ActivityPub actor
(`ImmersClient.ProfileFromActor`). The `collections` field (`actor.streams`)
is not modelled as no claim reads it. -/
structure Profile where
  id : String
  handle : String
  homeImmer : String
  displayName : Option String
  username : Option String
  avatarImage : Option String
  avatarModel : Option String
  url : String
deriving Repr, DecidableEq

/-- Model of `ImmersClient.ProfileFromActor`: destructures the actor (throws
a TypeError on `undefined`), takes the host of `new URL(id)` (throws on a
missing or unparseable id — a string actor destructures to an undefined id,
and `new URL(undefined)` throws), and builds the profile record. -/
def ImmersClient.ProfileFromActor : JVal → Except JsErr Profile
  | .undef => .error .typeError
  | .jstr _ => .error .urlError
  | .jobj o =>
    match o.id with
    | none => .error .urlError
    | some i =>
      match urlHost i with
      | none => .error .urlError
      | some host =>
        .ok { id := i
              handle := jsShow o.preferredUsername ++ "[" ++ host ++ "]"
              homeImmer := host
              displayName := o.name
              username := o.preferredUsername
              avatarImage := o.icon
              avatarModel := o.avatar
              url := o.url.getD i }

/-- An inbound ActivityPub activity as the derivers receive it: every field
may be absent. -/
structure Activity where
  id : Option String := none
  type : Option String := none
  actor : JVal := .undef
  object : JVal := .undef
  target : JVal := .undef
  toAddr : JVal := .undef
  summary : Option String := none
  content : Option String := none
  published : Option String := none
  inReplyTo : Option String := none
deriving Repr, DecidableEq

/-- The derived friend status record. `_activity` models the non-enumerable
back-reference to the source activity installed with `Object.defineProperty`. -/
structure FriendStatus where
  profile : Profile
  isOnline : Bool
  locationName : Option String
  locationURL : Option String
  status : String
  statusString : String
  __unsafeStatusHTML : String
  statusHTML : String
  _activity : Activity
deriving Repr, DecidableEq

/-- The derived display message record. Timestamps are kept as strings (the
source wraps them in `new Date`, which never throws). -/
structure Message where
  id : Option String
  type : String
  sender : Profile
  timestamp : String
  __unsafeMessageHTML : String
  messageHTML : String
  mediaType : Option String := none
  url : Option String := none
deriving Repr, DecidableEq

/-- The `switch (activity.type.toLowerCase())` dispatch of
`ImmersClient.FriendStatusFromActivity`, computing the status, the status
strings, and the subject whose profile is derived (the activity's actor,
except for an outgoing request — a Follow whose `actor.id` is falsy but whose
`object?.id` is truthy — which selects `activity.object`). The strict
`actor.id` access throws a TypeError on an undefined actor. -/
def ImmersClient.friendStatusParts (activity : Activity) (ty : String) :
    Except JsErr (String × String × String × JVal) :=
  let locationName := activity.target.nameOpt
  let locationURL := activity.target.urlOpt
  if ty = "arrive" then
    .ok ("friend-online",
      "Online at " ++ jsShow locationName ++ " (" ++ jsShow locationURL ++ ")",
      "<span>Online at <a href=\"" ++ jsShow locationURL ++ "\">" ++
        jsShow locationName ++ "</a></span>",
      activity.actor)
  else if ty = "leave" ∨ ty = "accept" then
    .ok ("friend-offline", "Offline", "<span>Offline</span>", activity.actor)
  else if ty = "follow" then
    match activity.actor.idStrict with
    | .error e => .error e
    | .ok aid =>
      if truthyStr aid then
        .ok ("request-received", "Sent you a friend request",
          "<span>Sent you a friend request</span>", activity.actor)
      else if truthyStr activity.object.idOpt then
        .ok ("request-sent", "You sent a friend request",
          "<span>You sent a friend request</span>", activity.object)
      else
        .ok ("none", "", "<span></span>", activity.actor)
  else
    .ok ("none", "", "<span></span>", activity.actor)

/-- Model of `ImmersClient.FriendStatusFromActivity`: classifies one activity
into a relationship status by `activity.type.toLowerCase()` (throwing a
TypeError when `type` is undefined), reads the location fields from
`activity.target`, derives the subject's profile, and retains the source
activity as the non-enumerable `_activity` back-reference. -/
def ImmersClient.FriendStatusFromActivity (sanitize : String → String)
    (activity : Activity) : Except JsErr FriendStatus :=
  match activity.type with
  | none => .error JsErr.typeError
  | some tyRaw =>
    match ImmersClient.friendStatusParts activity (jsToLower tyRaw) with
    | .error e => .error e
    | .ok parts =>
      match ImmersClient.ProfileFromActor parts.2.2.2 with
      | .error e => .error e
      | .ok profile =>
        .ok { profile,
              isOnline := parts.1 == "friend-online",
              locationName := activity.target.nameOpt,
              locationURL := activity.target.urlOpt,
              status := parts.1, statusString := parts.2.1,
              __unsafeStatusHTML := parts.2.2.1,
              statusHTML := sanitize parts.2.2.1,
              _activity := activity }

/-- The content-resolution `switch (activity.type)` of
`ImmersClient.MessageFromActivity`: a strict (case-sensitive) switch that
computes the message category, the raw HTML content, the media kind, and the
media URL. An undefined type falls to the default branch (content becomes the
activity's summary) without throwing; the content pre-assigned from
`activity.object?.content || activity.content` survives only the branches
that do not overwrite it (a `Create` of an unknown object type, and a
`Follow` carrying an in-reply-to marker). -/
def ImmersClient.messageParts (activity : Activity) :
    String × Option String × Option String × Option String :=
  let base := jsOr activity.object.contentOpt activity.content
  match activity.type with
  | some "Create" =>
    match activity.object.typeOpt with
    | some "Note" => ("chat", activity.object.contentOpt, none, none)
    | some "Image" =>
      ("media",
       some ("<img class=\"immers-message-media\" src=" ++
         jsShow activity.object.urlOpt ++ " crossorigin=\"anonymous\">"),
       some "image", activity.object.urlOpt)
    | some "Video" =>
      ("media",
       some ("<video class=\"immers-message-media\" controls autplay muted plasinline src=" ++
         jsShow activity.object.urlOpt ++ " crossorigin=\"anonymous\">"),
       some "video", activity.object.urlOpt)
    | _ => ("other", base, none, none)
  | some "Arrive" => ("status", activity.summary, none, none)
  | some "Leave" => ("status", activity.summary, none, none)
  | some "Follow" =>
    if truthyStr activity.inReplyTo then
      ("other", base, none, none)
    else
      ("status", jsOr activity.summary (some "<span>Sent you a friend request</span>"),
        none, none)
  | some "Accept" =>
    ("status", jsOr activity.summary (some "<span>Accepted your friend request</span>"),
      none, none)
  | _ => ("other", activity.summary, none, none)

/-- Model of `ImmersClient.MessageFromActivity`: builds the envelope via the
profile derivation and `messageParts`, and returns `none` (JS `null`) when no
truthy content was resolved. -/
def ImmersClient.MessageFromActivity (sanitize : String → String) (now : String)
    (activity : Activity) : Except JsErr (Option Message) :=
  match ImmersClient.ProfileFromActor activity.actor with
  | .error e => .error e
  | .ok sender =>
    let timestamp := if truthyStr activity.published then jsShow activity.published else now
    let parts := ImmersClient.messageParts activity
    if truthyStr parts.2.1 then
      .ok (some { id := activity.id, type := parts.1, sender, timestamp,
                  __unsafeMessageHTML := jsShow parts.2.1,
                  messageHTML := sanitize (jsShow parts.2.1),
                  mediaType := parts.2.2.1, url := parts.2.2.2 })
    else
      .ok none

/-- Model of `Array.prototype.map` with a callback that may throw: the first
exception aborts the whole traversal. -/
def mapJs {α β : Type} (f : α → Except JsErr β) : List α → Except JsErr (List β)
  | [] => .ok []
  | a :: rest =>
    match f a with
    | .error e => .error e
    | .ok b =>
      match mapJs f rest with
      | .error e => .error e
      | .ok l => .ok (b :: l)

/-- Model of `ImmersClient.FriendsSorter`, the comparator passed to
`Array.prototype.sort`: online friends first, ties by strict-equality /
lexicographic comparison of the source activities' `published` strings,
most recent first. -/
def ImmersClient.FriendsSorter (a b : FriendStatus) : Int :=
  if a.status = "friend-online" ∧ b.status ≠ "friend-online" then -1
  else if b.status = "friend-online" ∧ a.status ≠ "friend-online" then 1
  else if a._activity.published = b._activity.published then 0
  else if jsGT a._activity.published b._activity.published then -1
  else 1

/-- The "a sorts no later than b" relation induced by the comparator; what
`Array.prototype.sort` guarantees of adjacent elements for a consistent
comparator. -/
def FriendsSorterLE (a b : FriendStatus) : Prop := ImmersClient.FriendsSorter a b ≤ 0

instance : DecidableRel FriendsSorterLE :=
  fun a b => Int.decLe (ImmersClient.FriendsSorter a b) 0

/-- Model of `ImmersClient.friendsList` applied to the fetched friends
collection's `orderedItems`: first the unfiltered derivation stored into the
credential store (its exceptions propagate first, as in the source), then the
returned list: drop `Reject` activities, re-derive, and sort. JS
`Array.prototype.sort` (stable, ES2019) is modelled by the stable
`List.insertionSort`. -/
def ImmersClient.friendsList (sanitize : String → String)
    (orderedItems : List Activity) : Except JsErr (List FriendStatus) :=
  match mapJs (ImmersClient.FriendStatusFromActivity sanitize) orderedItems with
  | .error e => .error e
  | .ok _ =>
    match mapJs (ImmersClient.FriendStatusFromActivity sanitize)
        (orderedItems.filter fun a => !(a.type == some "Reject")) with
    | .error e => .error e
    | .ok shown => .ok (List.insertionSort FriendsSorterLE shown)

/-- The session actor record: the fields of the ActivityPub actor object the
low-level client reads (`endpoints.proxyUrl` and `endpoints.uploadMedia`
flattened). -/
structure APActor where
  id : String
  inbox : String
  outbox : String
  followers : Option String := none
  preferredUsername : Option String := none
  proxyUrl : Option String := none
  uploadMedia : Option String := none
deriving Repr, DecidableEq

/-- A Place-type object describing a venue. -/
structure APPlace where
  id : Option String := none
  name : Option String := none
  url : Option String := none
  audience : Option String := none
deriving Repr, DecidableEq

/-- A pagination cursor value as the JS field `nextInboxPage`/`nextOutboxPage`
holds it: `null` (not started), `undefined` (exhausted), or a string page IRI
(a falsy "" also counts as exhausted). -/
inductive JsCursor where
  | jnull
  | jundef
  | jstr (s : String)
deriving Repr, DecidableEq

/-- The `Activities` low-level client instance state. -/
structure Activities where
  actor : APActor
  homeImmer : String
  place : APPlace
  token : Option String := none
  localImmer : Option String := none
  nextInboxPage : JsCursor := .jnull
  nextOutboxPage : JsCursor := .jnull
deriving Repr, DecidableEq

/-- The public-address sentinel `Activities.PublicAddress`. -/
def Activities.PublicAddress : String := "as:Public"

/-- Model of `Activities.trustedIRI`: a truthy configured local-immer origin
that the IRI starts with, or the IRI starting with the home-immer string. -/
def Activities.trustedIRI (self : Activities) (iri : String) : Bool :=
  (match self.localImmer with
   | some l => !(l == "") && jsStartsWith iri l
   | none => false) || jsStartsWith iri self.homeImmer

/-- A collection (or collection page) object returned by a fetch. `none`
`orderedItems` models an absent field (any present array, even empty, is
truthy in JS). -/
structure Collection where
  orderedItems : Option (List Activity) := none
  first : Option String := none
  next : Option String := none
deriving Repr, DecidableEq

/-- A profile-update object handed to `updateProfile` (which also mutates it,
setting `id`). -/
structure ProfileUpdate where
  id : Option String := none
  name : Option String := none
  summary : Option String := none
deriving Repr, DecidableEq

/-- Values appearing in the fields of outgoing activity objects. -/
inductive OutVal where
  | undef
  | str (s : String)
  | pl (p : APPlace)
  | jv (v : JVal)
  | upd (u : ProfileUpdate)
deriving Repr, DecidableEq

/-- An outgoing activity object as built by the posting helpers of
`Activities`. Absent fields are the defaults. -/
structure OutgoingActivity where
  type : String
  actor : Option String := none
  object : OutVal := .undef
  target : OutVal := .undef
  toAddr : OutVal := .undef
  summary : Option String := none
deriving Repr, DecidableEq

/-- A network request issued by the client: a direct authenticated GET, the
ActivityPub proxy POST (form body `id`), or an activity POST to the outbox. -/
inductive NetReq where
  | get (url : String)
  | proxyPost (proxyUrl : String) (id : String)
  | post (url : String) (activity : OutgoingActivity)
deriving Repr, DecidableEq

/-- A network response: HTTP success flag and status, the Location header,
and the parsed JSON body (as a collection object). -/
structure NetResp where
  ok : Bool := true
  status : Nat := 200
  location : Option String := none
  body : Collection := {}
deriving Repr, DecidableEq

/-- Model of `Activities.getObject`: direct fetch when the IRI is trusted,
else a POST through the actor's proxy endpoint when advertised (and truthy),
else a thrown capability error; non-ok responses throw. Returns the result
and the list of requests issued. -/
def Activities.getObject (self : Activities) (net : NetReq → NetResp) (iri : String) :
    Except JsErr Collection × List NetReq :=
  if self.trustedIRI iri then
    let r := net (.get iri)
    ((if r.ok then .ok r.body else .error (.fetchError iri)), [.get iri])
  else
    match self.actor.proxyUrl with
    | some p =>
      if p = "" then (.error .unsupportedCapability, [])
      else
        let r := net (.proxyPost p iri)
        ((if r.ok then .ok r.body else .error (.fetchError iri)), [.proxyPost p iri])
    | none => (.error .unsupportedCapability, [])

/-- Model of `Activities.postActivity`: throws `invalidOutbox` before issuing
any request when the actor's outbox is not trusted; otherwise POSTs the
activity to the outbox, throwing on a non-ok response and returning the
Location header on success. -/
def Activities.postActivity (self : Activities) (net : NetReq → NetResp)
    (activity : OutgoingActivity) : Except JsErr (Option String) × List NetReq :=
  if !self.trustedIRI self.actor.outbox then
    (.error .invalidOutbox, [])
  else
    let r := net (.post self.actor.outbox activity)
    ((if r.ok then .ok r.location else .error (.remoteError r.status)),
      [.post self.actor.outbox activity])

/-- The Accept activity built by `Activities.accept` (the source's typo in the
summary string is reproduced). -/
def Activities.acceptActivity (self : Activities) (follow : Activity) : OutgoingActivity :=
  { type := "Accept", actor := some self.actor.id,
    object := (follow.id.map OutVal.str).getD .undef,
    toAddr := .jv follow.actor,
    summary := some "<span>Accepted your a friend request</span>" }

/-- Model of `Activities.accept`. -/
def Activities.accept (self : Activities) (net : NetReq → NetResp) (follow : Activity) :=
  self.postActivity net (self.acceptActivity follow)

/-- The argument of `add`: an activity IRI or an activity object. -/
inductive AddArg where
  | iri (s : String)
  | act (a : Activity)
deriving Repr, DecidableEq

/-- The Add activity built by `Activities.add`. -/
def Activities.addActivity (self : Activities) (activity : AddArg) (target : String) :
    OutgoingActivity :=
  { type := "Add", actor := some self.actor.id,
    object := match activity with
      | .iri s => .str s
      | .act a => (a.id.map OutVal.str).getD .undef,
    target := .str (if jsStartsWith target "https://" then target
      else "https://" ++ self.homeImmer ++ "/collection/" ++
        jsShow self.actor.preferredUsername ++ "/" ++ target) }

/-- Model of `Activities.add`. -/
def Activities.add (self : Activities) (net : NetReq → NetResp) (activity : AddArg)
    (target : String) :=
  self.postActivity net (self.addActivity activity target)

/-- The Arrive activity built by `Activities.arrive` (the optional place
argument defaults to the session's current place). -/
def Activities.arriveActivity (self : Activities) (placeArg : Option APPlace) :
    OutgoingActivity :=
  let place := placeArg.getD self.place
  { type := "Arrive", actor := some self.actor.id, target := .pl place,
    toAddr := (self.actor.followers.map OutVal.str).getD .undef,
    summary := some ("<span>Arrived at <a href=\"" ++ jsShow place.url ++ "\">" ++
      jsShow place.name ++ "</a></span>") }

/-- Model of `Activities.arrive`. -/
def Activities.arrive (self : Activities) (net : NetReq → NetResp)
    (placeArg : Option APPlace) :=
  self.postActivity net (self.arriveActivity placeArg)

/-- The Leave activity built by `Activities.leave`. -/
def Activities.leaveActivity (self : Activities) (placeArg : Option APPlace) :
    OutgoingActivity :=
  let place := placeArg.getD self.place
  { type := "Leave", actor := some self.actor.id, target := .pl place,
    toAddr := (self.actor.followers.map OutVal.str).getD .undef,
    summary := some ("<span>Left <a href=\"" ++ jsShow place.url ++ "\">" ++
      jsShow place.name ++ "</a></span>") }

/-- Model of `Activities.leave`. -/
def Activities.leave (self : Activities) (net : NetReq → NetResp)
    (placeArg : Option APPlace) :=
  self.postActivity net (self.leaveActivity placeArg)

/-- The Block activity built by `Activities.block`. -/
def Activities.blockActivity (self : Activities) (blockeeId : String) : OutgoingActivity :=
  { type := "Block", actor := some self.actor.id, object := .str blockeeId }

/-- Model of `Activities.block`. -/
def Activities.block (self : Activities) (net : NetReq → NetResp) (blockeeId : String) :=
  self.postActivity net (self.blockActivity blockeeId)

/-- The Create activity built by `Activities.create`. -/
def Activities.createActivity (self : Activities) (object : JVal) : OutgoingActivity :=
  { type := "Create", actor := some self.actor.id, object := .jv object }

/-- Model of the posting step of `Activities.create` (the source then fetches
the created resource, which no claim depends on). -/
def Activities.create (self : Activities) (net : NetReq → NetResp) (object : JVal) :=
  self.postActivity net (self.createActivity object)

/-- The Follow activity built by `Activities.follow`. -/
def Activities.followActivity (self : Activities) (targetId : String) : OutgoingActivity :=
  { type := "Follow", actor := some self.actor.id, object := .str targetId,
    toAddr := .str targetId,
    summary := some "<span>Sent you a friend request</span>" }

/-- Model of `Activities.follow`. -/
def Activities.follow (self : Activities) (net : NetReq → NetResp) (targetId : String) :=
  self.postActivity net (self.followActivity targetId)

/-- The Reject activity built by `Activities.reject`. -/
def Activities.rejectActivity (self : Activities) (objectId recipientId : String) :
    OutgoingActivity :=
  { type := "Reject", actor := some self.actor.id, object := .str objectId,
    toAddr := .str recipientId }

/-- Model of `Activities.reject`. -/
def Activities.reject (self : Activities) (net : NetReq → NetResp)
    (objectId recipientId : String) :=
  self.postActivity net (self.rejectActivity objectId recipientId)

/-- The Undo activity built by `Activities.undo`. -/
def Activities.undoActivity (self : Activities) (activity : Activity) : OutgoingActivity :=
  { type := "Undo", actor := some self.actor.id,
    object := (activity.id.map OutVal.str).getD .undef,
    toAddr := .jv activity.toAddr }

/-- Model of `Activities.undo`. -/
def Activities.undo (self : Activities) (net : NetReq → NetResp) (activity : Activity) :=
  self.postActivity net (self.undoActivity activity)

/-- The Update activity built by `Activities.updateProfile` (which first sets
`update.id` to the session actor's id). -/
def Activities.updateProfileActivity (self : Activities) (update : ProfileUpdate) :
    OutgoingActivity :=
  { type := "Update", actor := some self.actor.id,
    object := .upd { update with id := some self.actor.id },
    toAddr := (self.actor.followers.map OutVal.str).getD .undef }

/-- Model of `Activities.updateProfile`. -/
def Activities.updateProfile (self : Activities) (net : NetReq → NetResp)
    (update : ProfileUpdate) :=
  self.postActivity net (self.updateProfileActivity update)

/-- An explicit store of string arrays: JS array values are references into
this store, so copying (`slice`) versus aliasing is observable. Elements are
possibly undefined strings (pushing an undefined `followers` stores
undefined). -/
structure ArrStore where
  arrs : List (List (Option String))
deriving Repr, DecidableEq

/-- Read the array behind a reference. -/
def ArrStore.get (st : ArrStore) (r : Nat) : List (Option String) := st.arrs.getD r []

/-- Allocate a fresh array (the model of `slice()` allocates through this). -/
def ArrStore.alloc (st : ArrStore) (v : List (Option String)) : Nat × ArrStore :=
  (st.arrs.length, ⟨st.arrs ++ [v]⟩)

/-- Model of `arr.push(x)` on the array behind reference `r`. -/
def ArrStore.push (st : ArrStore) (r : Nat) (x : Option String) : ArrStore :=
  ⟨st.arrs.set r (st.arrs.getD r [] ++ [x])⟩

/-- A bare object built by the media helpers `note`/`image`/`video`/`model`:
unlike the other posting helpers these post a plain object carrying
`attributedTo`, and set no `actor` key (the `actor` field stays the default
`none`, modelling the absent key). `to` is a reference into the array store. -/
structure MediaObj where
  type : String
  content : Option String := none
  url : Option String := none
  name : Option String := none
  attributedTo : String
  context : APPlace
  toAddr : Nat
  summary : Option String := none
  actor : Option String := none
deriving Repr, DecidableEq

/-- Shared audience-addressing step of the media builders: push the actor's
followers collection for the friends or public audience, and the
public-address sentinel for the public audience, onto the object's own `to`
array. -/
def Activities.addressAudience (self : Activities) (st : ArrStore) (toRef : Nat)
    (audience : Option String) : ArrStore :=
  let st := if audience = some "friends" ∨ audience = some "public"
    then st.push toRef self.actor.followers else st
  if audience = some "public" then st.push toRef (some Activities.PublicAddress) else st

/-- Model of the object-building part of `Activities.note`: copies the
caller's `to` array with `slice()`, then appends audience addresses to the
copy. The built object is what the source immediately posts via
`postActivity`. -/
def Activities.note (self : Activities) (st : ArrStore) (content : String) (toRef : Nat)
    (audience : Option String) (summary : Option String) : MediaObj × ArrStore :=
  let copy := st.alloc (st.get toRef)
  let copyRef := copy.1
  let st1 := copy.2
  let obj : MediaObj :=
    { content := some content, type := "Note", attributedTo := self.actor.id,
      context := self.place, toAddr := copyRef,
      summary := if truthyStr summary then summary else none }
  (obj, self.addressAudience st1 copyRef audience)

/-- Model of the object-building part of `Activities.image`. -/
def Activities.image (self : Activities) (st : ArrStore) (url : String) (toRef : Nat)
    (audience : Option String) (summary : Option String) : MediaObj × ArrStore :=
  let copy := st.alloc (st.get toRef)
  let copyRef := copy.1
  let st1 := copy.2
  let obj : MediaObj :=
    { url := some url, type := "Image", attributedTo := self.actor.id,
      context := self.place, toAddr := copyRef,
      summary := if truthyStr summary then summary else none }
  (obj, self.addressAudience st1 copyRef audience)

/-- Model of the object-building part of `Activities.video`. -/
def Activities.video (self : Activities) (st : ArrStore) (url : String) (toRef : Nat)
    (audience : Option String) (summary : Option String) : MediaObj × ArrStore :=
  let copy := st.alloc (st.get toRef)
  let copyRef := copy.1
  let st1 := copy.2
  let obj : MediaObj :=
    { url := some url, type := "Video", attributedTo := self.actor.id,
      context := self.place, toAddr := copyRef,
      summary := if truthyStr summary then summary else none }
  (obj, self.addressAudience st1 copyRef audience)

/-- Model of the object-building part of `Activities.model` (the binary `glb`
and `icon` blobs are opaque to the object shape and not modelled; the object
is posted through `postMedia`). -/
def Activities.model (self : Activities) (st : ArrStore) (name : String) (toRef : Nat)
    (audience : Option String) : MediaObj × ArrStore :=
  let copy := st.alloc (st.get toRef)
  let copyRef := copy.1
  let st1 := copy.2
  let obj : MediaObj :=
    { name := some name, type := "Model", attributedTo := self.actor.id,
      context := self.place, toAddr := copyRef }
  (obj, self.addressAudience st1 copyRef audience)

/-- The cursor value stored by `this.nextInboxPage = col?.next`. -/
def cursorOf : Option Collection → JsCursor
  | none => .jundef
  | some c =>
    match c.next with
    | none => .jundef
    | some s => .jstr s

/-- JS truthiness of a cursor value. -/
def JsCursor.truthy : JsCursor → Bool
  | .jstr s => !(s == "")
  | _ => false

/-- Model of `Activities.inbox`: on the first call (`null` cursor) fetch the
collection root and, when it has no inline items but a truthy `first`
reference, fetch that first page instead; on later calls fetch the cursor
page if the cursor is truthy, else return `undefined` without fetching.
Always stores `col?.next` as the new cursor (exceptions abort before the
store, leaving the cursor unchanged). -/
def Activities.inbox (self : Activities) (net : NetReq → NetResp) :
    Except JsErr (Option Collection) × Activities × List NetReq :=
  match self.nextInboxPage with
  | .jnull =>
    match self.getObject net self.actor.inbox with
    | (.error e, tr) => (.error e, self, tr)
    | (.ok col, tr) =>
      if col.orderedItems.isNone ∧ truthyStr col.first then
        match self.getObject net (jsShow col.first) with
        | (.error e, tr2) => (.error e, self, tr ++ tr2)
        | (.ok col2, tr2) =>
          (.ok (some col2), { self with nextInboxPage := cursorOf (some col2) }, tr ++ tr2)
      else
        (.ok (some col), { self with nextInboxPage := cursorOf (some col) }, tr)
  | .jundef => (.ok none, { self with nextInboxPage := .jundef }, [])
  | .jstr s =>
    if s = "" then (.ok none, { self with nextInboxPage := .jundef }, [])
    else
      match self.getObject net s with
      | (.error e, tr) => (.error e, self, tr)
      | (.ok col, tr) =>
        (.ok (some col), { self with nextInboxPage := cursorOf (some col) }, tr)

/-- Model of `Activities.outbox`: identical to `inbox` but over the outbox
IRI and the outbox cursor. -/
def Activities.outbox (self : Activities) (net : NetReq → NetResp) :
    Except JsErr (Option Collection) × Activities × List NetReq :=
  match self.nextOutboxPage with
  | .jnull =>
    match self.getObject net self.actor.outbox with
    | (.error e, tr) => (.error e, self, tr)
    | (.ok col, tr) =>
      if col.orderedItems.isNone ∧ truthyStr col.first then
        match self.getObject net (jsShow col.first) with
        | (.error e, tr2) => (.error e, self, tr ++ tr2)
        | (.ok col2, tr2) =>
          (.ok (some col2), { self with nextOutboxPage := cursorOf (some col2) }, tr ++ tr2)
      else
        (.ok (some col), { self with nextOutboxPage := cursorOf (some col) }, tr)
  | .jundef => (.ok none, { self with nextOutboxPage := .jundef }, [])
  | .jstr s =>
    if s = "" then (.ok none, { self with nextOutboxPage := .jundef }, [])
    else
      match self.getObject net s with
      | (.error e, tr) => (.error e, self, tr)
      | (.ok col, tr) =>
        (.ok (some col), { self with nextOutboxPage := cursorOf (some col) }, tr)

/-- Modelled from the spec: the location-posting capability scope constant
`SCOPES.postLocation` imported from authUtils.js, which is not under src/
(the previous inlined client revision used the literal string
"postLocation"). -/
def SCOPES.postLocation : String := "postLocation"

/-- A destination argument: either a URL where a Place can be fetched, or a
Place-like object. -/
inductive DestSpec where
  | url (s : String)
  | place (p : APPlace)
deriving Repr, DecidableEq

/-- Observable effects of the presence-lifecycle operations. `postedArrive`
and `postedLeave` denote the `activities.arrive()`/`activities.leave()`
posts; the listener effects denote the streaming-socket handler
registration. -/
inductive ClientEffect where
  | postedArrive (p : APPlace)
  | postedLeave (p : APPlace)
  | logInfo (msg : String)
  | preparedLeaveOnDisconnect
  | clearedLeaveOnDisconnect
  | addedConnectListener
  | removedConnectListener
deriving Repr, DecidableEq

/-- The `ImmersClient` state the presence lifecycle reads: connected flag,
the stored credential's authorized scopes, the streaming socket's connected
flag, the current place, and the low-level client. -/
structure ImmersClient where
  connected : Bool := false
  authorizedScopes : List String := []
  streamingConnected : Bool := false
  place : APPlace := {}
  activities : Activities
deriving Repr, DecidableEq

/-- The log line emitted by the gated presence operations. -/
def noAuthLog : String := "Not sharing location because not authorized"

/-- Model of the private `#setPlaceFromDestination`: a string destination is
fetched (rejections propagate, as in the source, which has no catch on this
path); an object destination is merged over defaults (this branch cannot
reject: the local-immer base fetch in the source is wrapped in a catch). The
new place is also pushed into the low-level client. -/
def ImmersClient.setPlaceFromDestination (c : ImmersClient)
    (fetchPlace : String → Except JsErr APPlace) :
    DestSpec → Except JsErr ImmersClient
  | .url s =>
    (fetchPlace s).map fun p =>
      { c with place := p, activities := { c.activities with place := p } }
  | .place p =>
    let merged : APPlace :=
      { p with audience := p.audience.orElse fun _ => some Activities.PublicAddress }
    .ok { c with place := merged, activities := { c.activities with place := merged } }

/-- Model of `ImmersClient.enter`: optionally resolve a new destination
first, require login, no-op (log only) without the location-posting scope,
otherwise post an Arrive and arm leave-on-disconnect when the socket is
connected, and register the reconnect handler. -/
def ImmersClient.enter (c : ImmersClient) (fetchPlace : String → Except JsErr APPlace)
    (dest : Option DestSpec) : Except JsErr (ImmersClient × List ClientEffect) :=
  match (match dest with
         | some d => c.setPlaceFromDestination fetchPlace d
         | none => .ok c) with
  | .error e => .error e
  | .ok c1 =>
    if !c1.connected then .error .callerState
    else if !(c1.authorizedScopes.contains SCOPES.postLocation) then
      .ok (c1, [.logInfo noAuthLog])
    else
      .ok (c1, (if c1.streamingConnected then
        [.postedArrive c1.place, .preparedLeaveOnDisconnect] else []) ++
        [.addedConnectListener])

/-- Model of `ImmersClient.exit`: require login, no-op (log only) without the
location-posting scope, otherwise post a Leave, clear leave-on-disconnect and
deregister the reconnect handler. -/
def ImmersClient.exit (c : ImmersClient) : Except JsErr (ImmersClient × List ClientEffect) :=
  if !c.connected then .error .callerState
  else if !(c.authorizedScopes.contains SCOPES.postLocation) then
    .ok (c, [.logInfo noAuthLog])
  else
    .ok (c, [.postedLeave c.place, .clearedLeaveOnDisconnect, .removedConnectListener])

/-- Model of `ImmersClient.move`: require login, no-op (log only) without the
location-posting scope, otherwise exit and re-enter at the new destination. -/
def ImmersClient.move (c : ImmersClient) (fetchPlace : String → Except JsErr APPlace)
    (dest : DestSpec) : Except JsErr (ImmersClient × List ClientEffect) :=
  if !c.connected then .error .callerState
  else if !(c.authorizedScopes.contains SCOPES.postLocation) then
    .ok (c, [.logInfo noAuthLog])
  else
    match c.exit with
    | .error e => .error e
    | .ok r1 =>
      match r1.1.enter fetchPlace (some dest) with
      | .error e => .error e
      | .ok r2 => .ok (r2.1, r1.2 ++ r2.2)

/-- The two-level friend-list ordering relation the spec describes: an online
entry never follows a non-online entry, and entries in the same class are in
descending `published` order (the later entry is not more recent). -/
def FriendOrdered (x y : FriendStatus) : Prop :=
  (y.status = "friend-online" → x.status = "friend-online") ∧
  ((x.status = "friend-online" ↔ y.status = "friend-online") →
    jsGT y._activity.published x._activity.published = false)

/-- The suffix the media builders append to the (copied) `to` array:
the followers collection for the friends/public audiences, and the
public-address sentinel for the public audience. -/
def audienceAppends (self : Activities) (audience : Option String) :
    List (Option String) :=
  (if audience = some "friends" ∨ audience = some "public"
    then [self.actor.followers] else []) ++
  (if audience = some "public" then [some Activities.PublicAddress] else [])

/-! Concrete example data used by the witness theorems. -/

/-- An example session actor on the home immer. -/
def actorW : APActor :=
  { id := "https://home.example/u/me",
    inbox := "https://home.example/u/me/inbox",
    outbox := "https://home.example/u/me/outbox",
    followers := some "https://home.example/u/me/followers",
    preferredUsername := some "me" }

/-- An example current place. -/
def placeW : APPlace :=
  { id := some "https://venue.example/o/place", name := some "Venue",
    url := some "https://venue.example", audience := some Activities.PublicAddress }

/-- An example `Activities` client whose actor lives on the home immer. -/
def selfW : Activities :=
  { actor := actorW, homeImmer := "https://home.example", place := placeW,
    token := some "tok" }

/-- An example client whose configured home immer does not match the actor's
outbox, so the outbox is untrusted. -/
def selfUntrusted : Activities := { selfW with homeImmer := "https://elsewhere.example" }

/-- A network oracle that answers every request with a generic success. -/
def netW : NetReq → NetResp := fun _ => {}

/-- A minimal outgoing activity used to exercise `postActivity`. -/
def outActW : OutgoingActivity := { type := "Block" }

/-- An example friend actor object with a parseable id. -/
def actorJ : JObj :=
  { id := some "https://home.example/u/friend", preferredUsername := some "friend" }

/-- A second example friend actor object. -/
def actorJ2 : JObj :=
  { id := some "https://far.example/u/pal", preferredUsername := some "pal" }

/-- An example Arrive activity with a valid actor and a target place. -/
def arriveW : Activity :=
  { id := some "https://home.example/a/1", type := some "Arrive",
    actor := .jobj actorJ,
    target := .jobj { name := some "Venue", url := some "https://venue.example" },
    published := some "2021-03-01T00:00:00Z" }

/-- A fallback profile record (used only as a `getD` default). -/
def profileFallback : Profile :=
  { id := "", handle := "", homeImmer := "", displayName := none, username := none,
    avatarImage := none, avatarModel := none, url := "" }

/-- A fallback friend-status record (used only as a `getD` default). -/
def fsFallback : FriendStatus :=
  { profile := profileFallback, isOnline := false, locationName := none,
    locationURL := none, status := "", statusString := "", __unsafeStatusHTML := "",
    statusHTML := "", _activity := {} }

/-- The friend status derived from `arriveW` (with the identity sanitizer). -/
def fsArriveW : FriendStatus :=
  ((ImmersClient.FriendStatusFromActivity (fun s => s) arriveW).toOption).getD fsFallback

/-- Friends-collection example: an offline friend at t1. -/
def leaveT1 : Activity :=
  { id := some "https://home.example/a/t1", type := some "Leave",
    actor := .jobj actorJ, published := some "2021-01-01T00:00:00Z" }

/-- Friends-collection example: an online friend at t2. -/
def arriveT2 : Activity :=
  { id := some "https://home.example/a/t2", type := some "Arrive",
    actor := .jobj actorJ,
    target := .jobj { name := some "There", url := some "https://there.example" },
    published := some "2021-01-02T00:00:00Z" }

/-- Friends-collection example: another online friend at t3. -/
def arriveT3 : Activity :=
  { id := some "https://home.example/a/t3", type := some "Arrive",
    actor := .jobj actorJ2,
    target := .jobj { name := some "Here", url := some "https://here.example" },
    published := some "2021-01-03T00:00:00Z" }

/-- Friends-collection example: an outgoing friend request at t4 (the current
user is the actor, given as a bare IRI string, so `actor.id` is falsy and the
subject is the `object`). -/
def followT4 : Activity :=
  { id := some "https://home.example/a/t4", type := some "Follow",
    actor := .jstr "https://home.example/u/me",
    object := .jobj actorJ2, published := some "2021-01-04T00:00:00Z" }

/-- Friends-collection example: a rejected relationship at t5. -/
def rejectT5 : Activity :=
  { id := some "https://home.example/a/t5", type := some "Reject",
    actor := .jobj actorJ, published := some "2021-01-05T00:00:00Z" }

/-- The example friends collection items. -/
def itemsW : List Activity := [leaveT1, arriveT2, arriveT3, followT4, rejectT5]

/-- The friend list derived from `itemsW` (with the identity sanitizer). -/
def outW : List FriendStatus :=
  ((ImmersClient.friendsList (fun s => s) itemsW).toOption).getD []

/-- The first-page IRI of the example paginated collection. -/
def firstPageIRI : String := "https://home.example/u/me/inbox?page=1"

/-- The example collection root: no inline items, only a `first` reference. -/
def rootColW : Collection := { first := some firstPageIRI }

/-- The example first page, carrying items and a `next` reference. -/
def pageColW : Collection :=
  { orderedItems := some [arriveW],
    next := some "https://home.example/u/me/inbox?page=2" }

/-- A network oracle serving the example paginated collection for both the
inbox and the outbox roots. -/
def netPagesW : NetReq → NetResp := fun req =>
  match req with
  | .get u =>
    if u = "https://home.example/u/me/inbox" ∨ u = "https://home.example/u/me/outbox" then
      { body := rootColW }
    else if u = firstPageIRI then { body := pageColW }
    else { ok := false, status := 404 }
  | _ => { ok := false, status := 404 }

/-- An example client whose collections are exhausted (`undefined` and a
falsy "" cursor). -/
def selfExhaustedW : Activities :=
  { selfW with nextInboxPage := .jundef, nextOutboxPage := .jstr "" }

/-- A malformed activity with no actor at all. -/
def noActorW : Activity := { id := some "https://home.example/a/bad", type := some "Create" }

/-- A malformed activity with no type (its actor is fine). -/
def noTypeW : Activity := { id := some "https://home.example/a/bad2", actor := .jobj actorJ }

/-- A Follow carrying an in-reply-to marker and its own content. -/
def followBackContentW : Activity :=
  { id := some "https://home.example/a/fb", type := some "Follow",
    actor := .jobj actorJ, inReplyTo := some "https://home.example/a/orig",
    content := some "hello" }

/-- A Follow carrying an in-reply-to marker and no content. -/
def followBackPlainW : Activity :=
  { id := some "https://home.example/a/fb2", type := some "Follow",
    actor := .jobj actorJ, inReplyTo := some "https://home.example/a/orig" }

/-- An example logged-in client without the location-posting scope. -/
def clientNoScope : ImmersClient :=
  { connected := true, authorizedScopes := ["viewFriends", "viewPublic"],
    streamingConnected := true, place := placeW, activities := selfW }

/-- A destination fetcher that always fails. -/
def badFetchW : String → Except JsErr APPlace := fun s => .error (.fetchError s)

/-- A destination fetcher that always succeeds. -/
def okFetchW : String → Except JsErr APPlace := fun _ => .ok placeW

/-- An example array store holding one caller-owned `to` array. -/
def storeW : ArrStore := ⟨[[some "https://home.example/u/friend"]]⟩

/-! Helper lemmas. -/

theorem strLtb_irrefl : ∀ l : List Char, strLtb l l = false
  | [] => rfl
  | c :: t => by simp [strLtb, strLtb_irrefl t]

theorem strLtb_trans : ∀ (a b c : List Char),
    strLtb a b = true → strLtb b c = true → strLtb a c = true
  | [], [], _, h1, _ => by simp [strLtb] at h1
  | [], _ :: _, [], _, h2 => by simp [strLtb] at h2
  | [], _ :: _, _ :: _, _, _ => rfl
  | _ :: _, [], _, h1, _ => by simp [strLtb] at h1
  | _ :: _, _ :: _, [], _, h2 => by simp [strLtb] at h2
  | x :: xs, y :: ys, z :: zs, h1, h2 => by
    simp only [strLtb] at h1 h2 ⊢
    rcases lt_trichotomy x y with hxy | hxy | hxy
    · rcases lt_trichotomy y z with hyz | hyz | hyz
      · have hxz : x < z := lt_trans hxy hyz
        simp [hxz]
      · subst hyz
        simp [hxy]
      · rw [if_neg (lt_asymm hyz), if_pos hyz] at h2
        exact absurd h2 (by simp)
    · subst hxy
      rw [if_neg (lt_irrefl x), if_neg (lt_irrefl x)] at h1
      rcases lt_trichotomy x z with hxz | hxz | hxz
      · simp [hxz]
      · subst hxz
        rw [if_neg (lt_irrefl x), if_neg (lt_irrefl x)] at h2 ⊢
        exact strLtb_trans xs ys zs h1 h2
      · rw [if_neg (lt_asymm hxz), if_pos hxz] at h2
        exact absurd h2 (by simp)
    · rw [if_neg (lt_asymm hxy), if_pos hxy] at h1
      exact absurd h1 (by simp)

theorem strLtb_connex : ∀ (a b : List Char), a ≠ b →
    strLtb a b = true ∨ strLtb b a = true
  | [], [], h => absurd rfl h
  | [], _ :: _, _ => .inl rfl
  | _ :: _, [], _ => .inr rfl
  | x :: xs, y :: ys, h => by
    rcases lt_trichotomy x y with hxy | hxy | hxy
    · left
      simp [strLtb, hxy]
    · subst hxy
      have hne : xs ≠ ys := fun he => h (by rw [he])
      rcases strLtb_connex xs ys hne with hh | hh
      · left
        simp [strLtb, lt_irrefl, hh]
      · right
        simp [strLtb, lt_irrefl, hh]
    · right
      simp [strLtb, hxy]

theorem strLtb_asymm {a b : List Char} (h : strLtb a b = true) : strLtb b a = false := by
  cases hba : strLtb b a with
  | false => rfl
  | true =>
    have := strLtb_trans a b a h hba
    rw [strLtb_irrefl a] at this
    exact absurd this (by simp)

theorem strLtb_ge_trans {a b c : List Char} (hab : strLtb a b = false)
    (hbc : strLtb b c = false) : strLtb a c = false := by
  cases hac : strLtb a c with
  | false => rfl
  | true =>
    by_cases he : a = b
    · subst he
      rw [hac] at hbc
      exact absurd hbc (by simp)
    · rcases strLtb_connex a b he with hh | hh
      · rw [hh] at hab
        exact absurd hab (by simp)
      · have := strLtb_trans b a c hh hac
        rw [this] at hbc
        exact absurd hbc (by simp)

theorem URLOrigin_startsWith {s o : String} (h : URLOrigin s = some o) :
    jsStartsWith s o = true := by
  unfold URLOrigin at h
  cases hc : urlHostChars s.data with
  | none => rw [hc] at h; exact absurd h (by simp)
  | some kh =>
    rw [hc] at h
    simp only [Option.map_some'] at h
    cases h
    unfold jsStartsWith
    exact List.isPrefixOf_iff_prefix.mpr (List.take_prefix _ _)

theorem friendsSorterLE_iff {a b : FriendStatus} {pa pb : String}
    (ha : a._activity.published = some pa) (hb : b._activity.published = some pb) :
    FriendsSorterLE a b ↔
      ((a.status = "friend-online" ∧ b.status ≠ "friend-online") ∨
       ((a.status = "friend-online" ↔ b.status = "friend-online") ∧
        strLtb pa.data pb.data = false)) := by
  unfold FriendsSorterLE ImmersClient.FriendsSorter
  rw [ha, hb]
  by_cases h1 : a.status = "friend-online" ∧ b.status ≠ "friend-online"
  · rw [if_pos h1]
    constructor
    · intro _
      exact .inl h1
    · intro _
      decide
  · rw [if_neg h1]
    by_cases h2 : b.status = "friend-online" ∧ a.status ≠ "friend-online"
    · rw [if_pos h2]
      constructor
      · intro hc
        exact absurd hc (by decide)
      · rintro (hl | hr)
        · exact absurd hl h1
        · exact absurd (hr.1.mpr h2.1) h2.2
    · rw [if_neg h2]
      have hiff : a.status = "friend-online" ↔ b.status = "friend-online" := by
        constructor
        · intro haon
          by_contra hbon
          exact h1 ⟨haon, hbon⟩
        · intro hbon
          by_contra haon
          exact h2 ⟨hbon, haon⟩
      by_cases h3 : (some pa : Option String) = some pb
      · have hpp : pa = pb := by injection h3
        subst hpp
        rw [if_pos rfl]
        simp only [strLtb_irrefl]
        constructor
        · intro _
          exact .inr ⟨hiff, trivial⟩
        · intro _
          decide
      · rw [if_neg h3]
        simp only [jsGT]
        by_cases h4 : strLtb pb.data pa.data = true
        · rw [if_pos h4]
          constructor
          · intro _
            exact .inr ⟨hiff, strLtb_asymm h4⟩
          · intro _
            decide
        · rw [if_neg h4]
          constructor
          · intro hc
            exact absurd hc (by decide)
          · rintro (hl | hr)
            · exact absurd hl h1
            · have hne : pa.data ≠ pb.data := by
                intro he
                exact h3 (by rw [String.ext he])
              rcases strLtb_connex pa.data pb.data hne with hh | hh
              · rw [hh] at hr
                exact absurd hr.2 (by simp)
              · exact absurd hh h4

theorem friendsSorterLE_total {a b : FriendStatus}
    (ha : a._activity.published.isSome = true)
    (hb : b._activity.published.isSome = true) :
    FriendsSorterLE a b ∨ FriendsSorterLE b a := by
  rcases Option.isSome_iff_exists.mp ha with ⟨pa, hpa⟩
  rcases Option.isSome_iff_exists.mp hb with ⟨pb, hpb⟩
  rw [friendsSorterLE_iff hpa hpb, friendsSorterLE_iff hpb hpa]
  by_cases haon : a.status = "friend-online" <;>
    by_cases hbon : b.status = "friend-online"
  · by_cases hlt : strLtb pa.data pb.data = true
    · right
      right
      exact ⟨by constructor <;> intro _ <;> assumption, strLtb_asymm hlt⟩
    · left
      right
      exact ⟨by constructor <;> intro _ <;> assumption,
        Bool.not_eq_true _ ▸ hlt⟩
  · left
    left
    exact ⟨haon, hbon⟩
  · right
    left
    exact ⟨hbon, haon⟩
  · by_cases hlt : strLtb pa.data pb.data = true
    · right
      right
      exact ⟨by constructor <;> intro h <;> exact absurd h (by assumption),
        strLtb_asymm hlt⟩
    · left
      right
      exact ⟨by constructor <;> intro h <;> exact absurd h (by assumption),
        Bool.not_eq_true _ ▸ hlt⟩

theorem friendsSorterLE_trans {a b c : FriendStatus}
    (ha : a._activity.published.isSome = true)
    (hb : b._activity.published.isSome = true)
    (hc : c._activity.published.isSome = true)
    (hab : FriendsSorterLE a b) (hbc : FriendsSorterLE b c) :
    FriendsSorterLE a c := by
  rcases Option.isSome_iff_exists.mp ha with ⟨pa, hpa⟩
  rcases Option.isSome_iff_exists.mp hb with ⟨pb, hpb⟩
  rcases Option.isSome_iff_exists.mp hc with ⟨pc, hpc⟩
  rw [friendsSorterLE_iff hpa hpb] at hab
  rw [friendsSorterLE_iff hpb hpc] at hbc
  rw [friendsSorterLE_iff hpa hpc]
  rcases hab with h1 | h1 <;> rcases hbc with h2 | h2
  · exact absurd h2.1 h1.2
  · left
    exact ⟨h1.1, fun hcon => h1.2 (h2.1.mpr hcon)⟩
  · left
    exact ⟨h1.1.mpr h2.1, h2.2⟩
  · right
    exact ⟨h1.1.trans h2.1, strLtb_ge_trans h1.2 h2.2⟩

theorem orderedInsert_sorted_mem {α : Type} {le : α → α → Prop} [DecidableRel le]
    {P : α → Prop}
    (htot : ∀ x y, P x → P y → le x y ∨ le y x)
    (htrans : ∀ x y z, P x → P y → P z → le x y → le y z → le x z) :
    ∀ (l : List α) (a : α), P a → (∀ x ∈ l, P x) → l.Sorted le →
      (l.orderedInsert le a).Sorted le
  | [], a, _, _, _ => List.sorted_singleton a
  | b :: t, a, hPa, hPl, hs => by
    by_cases hab : le a b
    · rw [List.orderedInsert, if_pos hab]
      refine List.sorted_cons.mpr ⟨?_, hs⟩
      intro x hx
      rcases List.mem_cons.mp hx with rfl | hx
      · exact hab
      · exact htrans a b x hPa (hPl b (List.mem_cons_self b t))
          (hPl x (List.mem_cons_of_mem b hx)) hab (List.rel_of_sorted_cons hs x hx)
    · rw [List.orderedInsert, if_neg hab]
      have hst := List.sorted_cons.mp hs
      refine List.sorted_cons.mpr
        ⟨?_, orderedInsert_sorted_mem htot htrans t a hPa
          (fun x hx => hPl x (List.mem_cons_of_mem b hx)) hst.2⟩
      intro x hx
      rcases (List.mem_orderedInsert le).mp hx with hxa | hx
      · rw [hxa]
        exact (htot a b hPa (hPl b (List.mem_cons_self b t))).resolve_left hab
      · exact hst.1 x hx

theorem insertionSort_sorted_mem {α : Type} {le : α → α → Prop} [DecidableRel le]
    {P : α → Prop}
    (htot : ∀ x y, P x → P y → le x y ∨ le y x)
    (htrans : ∀ x y z, P x → P y → P z → le x y → le y z → le x z) :
    ∀ (l : List α), (∀ x ∈ l, P x) → (List.insertionSort le l).Sorted le
  | [], _ => List.sorted_nil
  | a :: t, hPl => by
    rw [List.insertionSort]
    refine orderedInsert_sorted_mem htot htrans _ a
      (hPl a (List.mem_cons_self a t)) ?_
      (insertionSort_sorted_mem htot htrans t
        fun x hx => hPl x (List.mem_cons_of_mem a hx))
    intro x hx
    exact hPl x (List.mem_cons_of_mem a
      ((List.perm_insertionSort le t).mem_iff.mp hx))

theorem mapJs_mem {α β : Type} {f : α → Except JsErr β} :
    ∀ (l : List α) (out : List β), mapJs f l = .ok out →
      ∀ b ∈ out, ∃ a ∈ l, f a = .ok b
  | [], out, h, b, hb => by
    simp only [mapJs] at h
    cases h
    exact absurd hb (by simp)
  | a :: rest, out, h, b, hb => by
    simp only [mapJs] at h
    cases hfa : f a with
    | error e => rw [hfa] at h; exact absurd h (by simp)
    | ok b0 =>
      rw [hfa] at h
      cases hrest : mapJs f rest with
      | error e => rw [hrest] at h; exact absurd h (by simp)
      | ok l0 =>
        rw [hrest] at h
        simp only [Except.ok.injEq] at h
        subst h
        rcases List.mem_cons.mp hb with rfl | hb2
        · exact ⟨a, List.mem_cons_self a rest, hfa⟩
        · rcases mapJs_mem rest l0 hrest b hb2 with ⟨a2, ha2, hfa2⟩
          exact ⟨a2, List.mem_cons_of_mem a ha2, hfa2⟩

theorem friendStatus_src {sanitize : String → String} {a : Activity}
    {fs : FriendStatus}
    (h : ImmersClient.FriendStatusFromActivity sanitize a = .ok fs) :
    fs._activity = a := by
  unfold ImmersClient.FriendStatusFromActivity at h
  split at h
  · exact Except.noConfusion h
  · split at h
    · exact Except.noConfusion h
    · split at h
      · exact Except.noConfusion h
      · cases h
        rfl

theorem ArrStore.get_push_ne (st : ArrStore) (q r : Nat) (x : Option String)
    (h : r ≠ q) : (st.push q x).get r = st.get r := by
  unfold ArrStore.push ArrStore.get
  rw [List.getD_eq_getElem?_getD, List.getD_eq_getElem?_getD,
    List.getElem?_set_ne (Ne.symm h), ← List.getD_eq_getElem?_getD]

theorem ArrStore.get_alloc_lt (st : ArrStore) (v : List (Option String)) (r : Nat)
    (h : r < st.arrs.length) : (st.alloc v).2.get r = st.get r := by
  unfold ArrStore.alloc ArrStore.get
  rw [List.getD_eq_getElem?_getD, List.getD_eq_getElem?_getD,
    List.getElem?_append, if_pos h, ← List.getD_eq_getElem?_getD]

theorem ArrStore.get_alloc_self (st : ArrStore) (v : List (Option String)) :
    (st.alloc v).2.get (st.alloc v).1 = v := by
  unfold ArrStore.alloc ArrStore.get
  rw [List.getD_eq_getElem?_getD, List.getElem?_concat_length]
  rfl

theorem ArrStore.get_push_self (st : ArrStore) (r : Nat) (x : Option String)
    (h : r < st.arrs.length) : (st.push r x).get r = st.get r ++ [x] := by
  unfold ArrStore.push ArrStore.get
  rw [List.getD_eq_getElem?_getD, List.getElem?_set_self (by simpa using h)]
  rfl

theorem ArrStore.length_push (st : ArrStore) (r : Nat) (x : Option String) :
    (st.push r x).arrs.length = st.arrs.length := by
  unfold ArrStore.push
  exact List.length_set st.arrs r _

theorem Activities.get_addressAudience_ne (self : Activities) (st : ArrStore)
    (tRef r : Nat) (aud : Option String) (h : r ≠ tRef) :
    (self.addressAudience st tRef aud).get r = st.get r := by
  unfold Activities.addressAudience
  split_ifs <;>
    simp only [ArrStore.get_push_ne _ _ _ _ h]

theorem Activities.get_addressAudience_self (self : Activities) (st : ArrStore)
    (tRef : Nat) (aud : Option String) (h : tRef < st.arrs.length) :
    (self.addressAudience st tRef aud).get tRef =
      st.get tRef ++ audienceAppends self aud := by
  unfold Activities.addressAudience audienceAppends
  split_ifs with h1 h2
  · rw [ArrStore.get_push_self _ _ _ (by rw [ArrStore.length_push]; exact h),
      ArrStore.get_push_self _ _ _ h, List.append_assoc]
  · rw [ArrStore.get_push_self _ _ _ h, List.append_nil]
  · rw [ArrStore.get_push_self _ _ _ h, List.nil_append]
  · rw [List.nil_append, List.append_nil]

theorem Activities.length_addressAudience (self : Activities) (st : ArrStore)
    (tRef : Nat) (aud : Option String) :
    (self.addressAudience st tRef aud).arrs.length = st.arrs.length := by
  unfold Activities.addressAudience
  split_ifs <;> simp only [ArrStore.length_push]

theorem setPlace_preserves {c : ImmersClient} {fp : String → Except JsErr APPlace}
    {d : DestSpec} {c2 : ImmersClient}
    (h : c.setPlaceFromDestination fp d = .ok c2) :
    c2.connected = c.connected ∧ c2.authorizedScopes = c.authorizedScopes ∧
      c2.streamingConnected = c.streamingConnected := by
  cases d with
  | url s =>
    simp only [ImmersClient.setPlaceFromDestination] at h
    cases hf : fp s with
    | error e =>
      rw [hf] at h
      exact Except.noConfusion h
    | ok p =>
      rw [hf] at h
      simp only [Except.map, Except.ok.injEq] at h
      subst h
      exact ⟨rfl, rfl, rfl⟩
  | place p =>
    simp only [ImmersClient.setPlaceFromDestination, Except.ok.injEq] at h
    subst h
    exact ⟨rfl, rfl, rfl⟩

/-! Claim theorems. -/

/-- C1 (counterexample): `trustedIRI` is prefix matching, not origin
matching — an identifier on the foreign origin
"https://home.example.evil.test" (neither the home origin
"https://home.example" nor any configured local origin, of which there is
none) is nevertheless trusted, because its text merely begins with the home
origin string. This refutes the claim that `isTrusted` returns false for
every identifier whose origin is any other origin. -/
theorem trustedIRI_counterexample :
    selfW.trustedIRI "https://home.example.evil.test/obj/1" = true ∧
    URLOrigin "https://home.example.evil.test/obj/1" =
      some "https://home.example.evil.test" ∧
    URLOrigin "https://home.example.evil.test/obj/1" ≠ some selfW.homeImmer ∧
    selfW.localImmer = none :=
  ⟨by decide, by decide, by decide, rfl⟩

/-- C1 (amended): the sound half of the Trust Router claim. `trustedIRI`
returns true whenever the identifier's origin equals the home-immer string or
the configured (truthy) local-immer origin — but not only then: it is prefix
matching on the identifier text, so identifiers of other origins extending a
trusted origin string are also trusted (see the counterexample). -/
theorem trustedIRI_origin_sufficient (self : Activities) (iri o : String)
    (ho : URLOrigin iri = some o)
    (hmatch : o = self.homeImmer ∨ (self.localImmer = some o ∧ o ≠ "")) :
    self.trustedIRI iri = true := by
  have hsw := URLOrigin_startsWith ho
  unfold Activities.trustedIRI
  rcases hmatch with rfl | ⟨hl, hne⟩
  · simp [hsw]
  · simp [hl, hsw, hne]

/-- C1 (witness): the home actor's own profile IRI has the home origin and is
trusted. -/
theorem trustedIRI_origin_sufficient_witness :
    selfW.trustedIRI "https://home.example/u/me" = true :=
  trustedIRI_origin_sufficient selfW "https://home.example/u/me"
    "https://home.example" (by decide) (.inl (by decide))

/-- C2 (counterexample): the object posted by the `note` builder carries no
`actor` field at all (it is attributed via `attributedTo` and wrapped by the
server), so the claim that every posting operation's outgoing object has
`actor` equal to the session actor's id fails for `note` (and likewise
`image`, `video`, `model`). -/
theorem note_actor_counterexample :
    (selfW.note storeW "hi" 0 (some "public") none).1.actor = none ∧
    selfW.actor.id = "https://home.example/u/me" :=
  ⟨rfl, rfl⟩

/-- C2 (amended): every outgoing activity built by the posting operations
`accept`, `add`, `arrive`, `leave`, `block`, `create`, `follow`, `reject`,
`undo`, and `updateProfile` has `actor` equal to the session actor's id; the
media builders `note`, `image`, `video`, and `model` instead post a bare
object with no `actor` field whose `attributedTo` equals the session actor's
id. -/
theorem posting_actor_field (self : Activities) (follow activity : Activity)
    (addArg : AddArg) (target blockeeId targetId objectId recipientId : String)
    (object : JVal) (update : ProfileUpdate) (placeArg : Option APPlace)
    (st : ArrStore) (content urlI urlV name : String) (toRef : Nat)
    (audience summary : Option String) :
    (self.acceptActivity follow).actor = some self.actor.id ∧
    (self.addActivity addArg target).actor = some self.actor.id ∧
    (self.arriveActivity placeArg).actor = some self.actor.id ∧
    (self.leaveActivity placeArg).actor = some self.actor.id ∧
    (self.blockActivity blockeeId).actor = some self.actor.id ∧
    (self.createActivity object).actor = some self.actor.id ∧
    (self.followActivity targetId).actor = some self.actor.id ∧
    (self.rejectActivity objectId recipientId).actor = some self.actor.id ∧
    (self.undoActivity activity).actor = some self.actor.id ∧
    (self.updateProfileActivity update).actor = some self.actor.id ∧
    ((self.note st content toRef audience summary).1.actor = none ∧
      (self.note st content toRef audience summary).1.attributedTo = self.actor.id) ∧
    ((self.image st urlI toRef audience summary).1.actor = none ∧
      (self.image st urlI toRef audience summary).1.attributedTo = self.actor.id) ∧
    ((self.video st urlV toRef audience summary).1.actor = none ∧
      (self.video st urlV toRef audience summary).1.attributedTo = self.actor.id) ∧
    ((self.model st name toRef audience).1.actor = none ∧
      (self.model st name toRef audience).1.attributedTo = self.actor.id) :=
  ⟨rfl, rfl, rfl, rfl, rfl, rfl, rfl, rfl, rfl, rfl,
    ⟨rfl, rfl⟩, ⟨rfl, rfl⟩, ⟨rfl, rfl⟩, ⟨rfl, rfl⟩⟩

/-- C3: posting with an untrusted outbox fails with the invalid-outbox error
and issues no network request at all. -/
theorem postActivity_untrusted_no_network (self : Activities)
    (net : NetReq → NetResp) (activity : OutgoingActivity)
    (h : self.trustedIRI self.actor.outbox = false) :
    self.postActivity net activity = (.error .invalidOutbox, []) := by
  simp [Activities.postActivity, h]

/-- C3 (witness): a client configured against a different home immer has an
untrusted outbox, and posting fails without network traffic. -/
theorem postActivity_untrusted_no_network_witness :
    selfUntrusted.postActivity netW outActW = (.error .invalidOutbox, []) :=
  postActivity_untrusted_no_network selfUntrusted netW outActW (by decide)

/-- C4: the relationship deriver classifies case-insensitively by activity
type: Arrive yields friend-online with the location fields read from the
activity's target; Leave and Accept yield friend-offline; a Follow whose
`actor.id` is truthy yields request-received; a Follow whose `actor.id` is
falsy but whose `object?.id` is truthy yields request-sent with the subject
profile derived from the `object`, not the `actor`; anything else yields
status none. -/
theorem friendStatus_classification (sanitize : String → String) (a : Activity)
    (fs : FriendStatus) (t : String)
    (hty : a.type = some t)
    (h : ImmersClient.FriendStatusFromActivity sanitize a = .ok fs) :
    (jsToLower t = "arrive" →
      fs.status = "friend-online" ∧ fs.isOnline = true ∧
      fs.locationName = a.target.nameOpt ∧ fs.locationURL = a.target.urlOpt) ∧
    ((jsToLower t = "leave" ∨ jsToLower t = "accept") →
      fs.status = "friend-offline" ∧ fs.isOnline = false) ∧
    (jsToLower t = "follow" →
      ∀ i, a.actor.idStrict = .ok i →
        ((truthyStr i = true → fs.status = "request-received") ∧
         (truthyStr i = false → truthyStr a.object.idOpt = true →
           fs.status = "request-sent" ∧
           ImmersClient.ProfileFromActor a.object = .ok fs.profile) ∧
         (truthyStr i = false → truthyStr a.object.idOpt = false →
           fs.status = "none"))) ∧
    (jsToLower t ≠ "arrive" → jsToLower t ≠ "leave" → jsToLower t ≠ "accept" →
      jsToLower t ≠ "follow" → fs.status = "none" ∧ fs.isOnline = false) := by
  unfold ImmersClient.FriendStatusFromActivity at h
  simp only [hty] at h
  split at h
  · exact Except.noConfusion h
  · rename_i parts hparts
    split at h
    · exact Except.noConfusion h
    · rename_i profile hp
      simp only [Except.ok.injEq] at h
      subst h
      refine ⟨?_, ?_, ?_, ?_⟩
      · intro h1
        simp only [ImmersClient.friendStatusParts] at hparts
        rw [if_pos h1] at hparts
        simp only [Except.ok.injEq] at hparts
        subst hparts
        exact ⟨rfl, rfl, rfl, rfl⟩
      · intro h1
        have hna : jsToLower t ≠ "arrive" := by
          rcases h1 with h1 | h1 <;> rw [h1] <;> decide
        simp only [ImmersClient.friendStatusParts] at hparts
        rw [if_neg hna, if_pos h1] at hparts
        simp only [Except.ok.injEq] at hparts
        subst hparts
        exact ⟨rfl, rfl⟩
      · intro h1 i hi
        have hna : jsToLower t ≠ "arrive" := by rw [h1]; decide
        have hnl : ¬(jsToLower t = "leave" ∨ jsToLower t = "accept") := by
          rw [h1]; decide
        simp only [ImmersClient.friendStatusParts] at hparts
        rw [if_neg hna, if_neg hnl, if_pos h1] at hparts
        split at hparts
        · exact Except.noConfusion hparts
        · rename_i aid heq
          rw [hi] at heq
          injection heq with heq
          subst heq
          refine ⟨?_, ?_, ?_⟩
          · intro htrue
            rw [if_pos htrue] at hparts
            simp only [Except.ok.injEq] at hparts
            subst hparts
            rfl
          · intro hfalse hobj
            rw [if_neg (by simp [hfalse]), if_pos hobj] at hparts
            simp only [Except.ok.injEq] at hparts
            subst hparts
            exact ⟨rfl, hp⟩
          · intro hfalse hobjf
            rw [if_neg (by simp [hfalse]), if_neg (by simp [hobjf])] at hparts
            simp only [Except.ok.injEq] at hparts
            subst hparts
            rfl
      · intro h1 h2 h3 h4
        have hnl : ¬(jsToLower t = "leave" ∨ jsToLower t = "accept") :=
          not_or.mpr ⟨h2, h3⟩
        simp only [ImmersClient.friendStatusParts] at hparts
        rw [if_neg h1, if_neg hnl, if_neg h4] at hparts
        simp only [Except.ok.injEq] at hparts
        subst hparts
        exact ⟨rfl, rfl⟩

/-- C4 (witness): a concrete Arrive activity is classified friend-online with
its location fields taken from the target. -/
theorem friendStatus_classification_witness :
    fsArriveW.status = "friend-online" ∧ fsArriveW.isOnline = true ∧
    fsArriveW.locationName = arriveW.target.nameOpt ∧
    fsArriveW.locationURL = arriveW.target.urlOpt :=
  (friendStatus_classification (fun s => s) arriveW fsArriveW "Arrive" rfl rfl).1 rfl

/-- C5: the derived friend list contains no entry whose source activity has
type Reject, and the returned list is sorted by the two-level rule — every
friend-online entry precedes every non-online entry, and entries in the same
class are in descending order of their source activity's publish timestamp
(assuming the collection's activities carry publish timestamps, without which
the ordering notion is vacuous and the comparator is not total). -/
theorem friendsList_reject_excluded_and_sorted (sanitize : String → String)
    (items : List Activity) (out : List FriendStatus)
    (hpub : ∀ a ∈ items, a.published.isSome = true)
    (h : ImmersClient.friendsList sanitize items = .ok out) :
    (∀ fs ∈ out, fs._activity.type ≠ some "Reject") ∧
      out.Pairwise FriendOrdered := by
  unfold ImmersClient.friendsList at h
  split at h
  · exact Except.noConfusion h
  · rename_i stored hstored
    split at h
    · exact Except.noConfusion h
    · rename_i shown hshown
      simp only [Except.ok.injEq] at h
      subst h
      have hshownSrc : ∀ fs ∈ shown,
          ∃ a2 ∈ items.filter (fun x => !(x.type == some "Reject")),
            ImmersClient.FriendStatusFromActivity sanitize a2 = .ok fs :=
        mapJs_mem _ _ hshown
      have hshownP : ∀ fs ∈ shown, fs._activity.published.isSome = true := by
        intro fs hfs
        rcases hshownSrc fs hfs with ⟨a2, ha2, hfa⟩
        rw [friendStatus_src hfa]
        exact hpub a2 (List.mem_filter.mp ha2).1
      have hshownR : ∀ fs ∈ shown, fs._activity.type ≠ some "Reject" := by
        intro fs hfs
        rcases hshownSrc fs hfs with ⟨a2, ha2, hfa⟩
        rw [friendStatus_src hfa]
        have hflt := (List.mem_filter.mp ha2).2
        intro he
        rw [he] at hflt
        simp at hflt
      have hmemSort : ∀ fs ∈ List.insertionSort FriendsSorterLE shown, fs ∈ shown :=
        fun fs hfs => (List.perm_insertionSort FriendsSorterLE shown).mem_iff.mp hfs
      constructor
      · intro fs hfs
        exact hshownR fs (hmemSort fs hfs)
      · have hsorted :
            (List.insertionSort FriendsSorterLE shown).Sorted FriendsSorterLE :=
          @insertionSort_sorted_mem FriendStatus FriendsSorterLE _
            (fun fs => fs._activity.published.isSome = true)
            (fun x y hx hy => friendsSorterLE_total hx hy)
            (fun x y z hx hy hz => friendsSorterLE_trans hx hy hz)
            shown hshownP
        refine List.Pairwise.imp_of_mem (fun {x} {y} hx hy hxy => ?_) hsorted
        have hxP := hshownP x (hmemSort x hx)
        have hyP := hshownP y (hmemSort y hy)
        rcases Option.isSome_iff_exists.mp hxP with ⟨px, hpx⟩
        rcases Option.isSome_iff_exists.mp hyP with ⟨py, hpy⟩
        rw [friendsSorterLE_iff hpx hpy] at hxy
        constructor
        · intro hyon
          rcases hxy with h1 | h1
          · exact h1.1
          · exact h1.1.mpr hyon
        · intro hcls
          rcases hxy with h1 | h1
          · exact absurd (hcls.mp h1.1) h1.2
          · rw [hpy, hpx]
            simpa [jsGT] using h1.2

/-- C5 (witness): the friend list derived from the example collection —
holding offline, online, request-sent and rejected entries — satisfies the
two-level ordering. -/
theorem friendsList_sorted_witness : outW.Pairwise FriendOrdered :=
  (friendsList_reject_excluded_and_sorted (fun s => s) itemsW outW
    (by decide) rfl).2

/-- C6: for the inbox and outbox paginators, a first call (null cursor) on a
collection root with no inline items but a truthy `first` reference fetches
and returns that first page and stores the page's `next` reference as the new
cursor; any call made while the cursor is falsy but not null returns no
collection and issues no network request. -/
theorem paginator_first_and_exhausted (self selfX : Activities)
    (net : NetReq → NetResp) (root page : Collection) (f : String)
    (hci : self.nextInboxPage = .jnull)
    (hco : self.nextOutboxPage = .jnull)
    (hti : self.trustedIRI self.actor.inbox = true)
    (hto : self.trustedIRI self.actor.outbox = true)
    (htf : self.trustedIRI f = true)
    (hroot : net (.get self.actor.inbox) = { body := root })
    (hrootO : net (.get self.actor.outbox) = { body := root })
    (hitems : root.orderedItems = none)
    (hfirst : root.first = some f)
    (hf : f ≠ "")
    (hpage : net (.get f) = { body := page })
    (hXi : selfX.nextInboxPage.truthy = false)
    (hXiN : selfX.nextInboxPage ≠ .jnull)
    (hXo : selfX.nextOutboxPage.truthy = false)
    (hXoN : selfX.nextOutboxPage ≠ .jnull) :
    self.inbox net = (.ok (some page),
      { self with nextInboxPage := cursorOf (some page) },
      [.get self.actor.inbox, .get f]) ∧
    self.outbox net = (.ok (some page),
      { self with nextOutboxPage := cursorOf (some page) },
      [.get self.actor.outbox, .get f]) ∧
    selfX.inbox net = (.ok none, { selfX with nextInboxPage := .jundef }, []) ∧
    selfX.outbox net = (.ok none, { selfX with nextOutboxPage := .jundef }, []) := by
  refine ⟨?_, ?_, ?_, ?_⟩
  · simp [Activities.inbox, hci, Activities.getObject, hti, hroot, hitems,
      hfirst, htf, hpage, truthyStr, jsShow, hf]
  · simp [Activities.outbox, hco, Activities.getObject, hto, hrootO, hitems,
      hfirst, htf, hpage, truthyStr, jsShow, hf]
  · cases hX : selfX.nextInboxPage with
    | jnull => exact absurd hX hXiN
    | jundef => simp [Activities.inbox, hX]
    | jstr s =>
      have hs : s = "" := by
        rw [hX] at hXi
        simpa [JsCursor.truthy] using hXi
      subst hs
      simp [Activities.inbox, hX]
  · cases hX : selfX.nextOutboxPage with
    | jnull => exact absurd hX hXoN
    | jundef => simp [Activities.outbox, hX]
    | jstr s =>
      have hs : s = "" := by
        rw [hX] at hXo
        simpa [JsCursor.truthy] using hXo
      subst hs
      simp [Activities.outbox, hX]

/-- C6 (witness): the example root collection (no inline items, only a
`first` reference) paginates as described, and the exhausted example client
(an `undefined` inbox cursor and a falsy "" outbox cursor) fetches nothing. -/
theorem paginator_first_and_exhausted_witness :
    selfW.inbox netPagesW = (.ok (some pageColW),
      { selfW with nextInboxPage := cursorOf (some pageColW) },
      [.get selfW.actor.inbox, .get firstPageIRI]) ∧
    selfW.outbox netPagesW = (.ok (some pageColW),
      { selfW with nextOutboxPage := cursorOf (some pageColW) },
      [.get selfW.actor.outbox, .get firstPageIRI]) ∧
    selfExhaustedW.inbox netPagesW =
      (.ok none, { selfExhaustedW with nextInboxPage := .jundef }, []) ∧
    selfExhaustedW.outbox netPagesW =
      (.ok none, { selfExhaustedW with nextOutboxPage := .jundef }, []) :=
  paginator_first_and_exhausted selfW selfExhaustedW netPagesW rootColW pageColW
    firstPageIRI rfl rfl (by decide) (by decide) (by decide) (by decide)
    (by decide) rfl rfl (by decide) (by decide) (by decide) (by decide)
    (by decide) (by decide)

/-- C7 (counterexample): the derivers are not total. A Create activity with
no actor makes `MessageFromActivity` throw (the profile destructuring of
`undefined`), and an activity with no `type` makes `FriendStatusFromActivity`
throw (`toLowerCase` of `undefined`) — refuting the claim that malformed
activities always degrade to `null`/`none` instead of throwing. -/
theorem derivers_throw_counterexample :
    ImmersClient.MessageFromActivity (fun s => s) "now" noActorW =
      .error .typeError ∧
    ImmersClient.FriendStatusFromActivity (fun s => s) noTypeW =
      .error .typeError :=
  ⟨rfl, rfl⟩

/-- C7 (amended): the derivers are total on activities that carry a type and
whose actor is an object with a URL-parseable id: for those, both
derivations return without throwing (unrecognized types degrade to status
none and to a `null`/summary message), so a batch of such activities maps
without failing. Activities missing the type or a derivable actor profile
throw, and one such entry fails the whole batch (see the counterexample). -/
theorem derivers_total_amended (sanitize : String → String) (now : String)
    (a : Activity)
    (hty : a.type.isSome = true)
    (hp : (ImmersClient.ProfileFromActor a.actor).isOk = true) :
    (ImmersClient.FriendStatusFromActivity sanitize a).isOk = true ∧
    (ImmersClient.MessageFromActivity sanitize now a).isOk = true := by
  cases hactor : a.actor with
  | undef => rw [hactor] at hp; simp [ImmersClient.ProfileFromActor, Except.isOk, Except.toBool] at hp
  | jstr s => rw [hactor] at hp; simp [ImmersClient.ProfileFromActor, Except.isOk, Except.toBool] at hp
  | jobj o =>
    rw [hactor] at hp
    cases hid : o.id with
    | none => simp [ImmersClient.ProfileFromActor, hid, Except.isOk, Except.toBool] at hp
    | some i =>
      cases hhost : urlHost i with
      | none => simp [ImmersClient.ProfileFromActor, hid, hhost, Except.isOk, Except.toBool] at hp
      | some host =>
        have hine : i ≠ "" := by
          intro he
          subst he
          rw [show urlHost "" = none from rfl] at hhost
          exact Option.noConfusion hhost
        have htruthy : truthyStr (some i) = true := by
          simp [truthyStr, hine]
        have hparts : ∀ ty, ∃ parts,
            ImmersClient.friendStatusParts a ty = .ok parts ∧
              parts.2.2.2 = a.actor := by
          intro ty
          simp only [ImmersClient.friendStatusParts]
          by_cases c1 : ty = "arrive"
          · rw [if_pos c1]
            exact ⟨_, rfl, rfl⟩
          · rw [if_neg c1]
            by_cases c2 : ty = "leave" ∨ ty = "accept"
            · rw [if_pos c2]
              exact ⟨_, rfl, rfl⟩
            · rw [if_neg c2]
              by_cases c3 : ty = "follow"
              · rw [if_pos c3, hactor]
                simp only [JVal.idStrict, hid, htruthy, if_true]
                exact ⟨_, rfl, rfl⟩
              · rw [if_neg c3]
                exact ⟨_, rfl, rfl⟩
        constructor
        · rcases Option.isSome_iff_exists.mp hty with ⟨t, ht⟩
          rcases hparts (jsToLower t) with ⟨parts, hpeq, hpact⟩
          simp only [ImmersClient.FriendStatusFromActivity, ht, hpeq, hpact,
            hactor, ImmersClient.ProfileFromActor, hid, hhost]
          rfl
        · simp only [ImmersClient.MessageFromActivity, hactor,
            ImmersClient.ProfileFromActor, hid, hhost]
          split
          · rfl
          · rfl

/-- C7 (witness): a well-formed Arrive activity derives without throwing
through both derivers. -/
theorem derivers_total_amended_witness :
    (ImmersClient.FriendStatusFromActivity (fun s => s) arriveW).isOk = true ∧
    (ImmersClient.MessageFromActivity (fun s => s) "now" arriveW).isOk = true :=
  derivers_total_amended (fun s => s) "now" arriveW rfl rfl

/-- C8 (counterexample): a Follow that carries an in-reply-to marker is
skipped by the Follow branch, but the content pre-assigned from the
activity's own `content` survives, so `MessageFromActivity` returns a
message (of category other) rather than `null` — refuting the claim that
every in-reply-to Follow produces no message. -/
theorem followBack_message_counterexample :
    followBackContentW.type = some "Follow" ∧
    truthyStr followBackContentW.inReplyTo = true ∧
    Except.map Option.isSome
      (ImmersClient.MessageFromActivity (fun s => s) "now" followBackContentW) =
      .ok true :=
  ⟨rfl, rfl, rfl⟩

/-- C8 (amended): a Follow carrying an in-reply-to marker never produces a
status message: for such an activity (with a derivable sender profile) the
derivation returns `null` unless the activity itself carries truthy content
(`object?.content || content`), in which case a message of category other is
produced from that content. -/
theorem followBack_suppressed (sanitize : String → String) (now : String)
    (a : Activity)
    (hty : a.type = some "Follow")
    (hreply : truthyStr a.inReplyTo = true)
    (hnc : truthyStr (jsOr a.object.contentOpt a.content) = false)
    (hp : (ImmersClient.ProfileFromActor a.actor).isOk = true) :
    ImmersClient.MessageFromActivity sanitize now a = .ok none := by
  have hmp : ImmersClient.messageParts a =
      ("other", jsOr a.object.contentOpt a.content, none, none) := by
    simp only [ImmersClient.messageParts, hty, hreply, if_true]
  unfold ImmersClient.MessageFromActivity
  cases hprof : ImmersClient.ProfileFromActor a.actor with
  | error e => rw [hprof] at hp; simp [Except.isOk, Except.toBool] at hp
  | ok sender =>
    simp only [hprof, hmp, hnc]
    rfl

/-- C8 (witness): a concrete in-reply-to Follow without content yields no
message. -/
theorem followBack_suppressed_witness :
    ImmersClient.MessageFromActivity (fun s => s) "now" followBackPlainW =
      .ok none :=
  followBack_suppressed (fun s => s) "now" followBackPlainW rfl rfl rfl rfl

/-- C9 (counterexample): `enter` called while logged in and unauthorized for
location posting can still fail: a destination description whose resolution
rejects propagates its failure before the capability check, so the operation
does not always "log and return normally". (No Arrive is posted either way.) -/
theorem enter_unauthorized_can_fail :
    clientNoScope.connected = true ∧
    clientNoScope.authorizedScopes.contains SCOPES.postLocation = false ∧
    clientNoScope.enter badFetchW (some (.url "https://bad.example/place")) =
      .error (.fetchError "https://bad.example/place") :=
  ⟨rfl, by decide, rfl⟩

/-- C9 (amended): while logged in without the location-posting scope, `exit`
and `move` (always), and `enter` when called without a destination or with
one that resolves, post no Arrive or Leave, log, and return normally as
no-ops; only `enter` with a destination whose resolution fails rejects (see
the counterexample). -/
theorem presence_scope_gating (c : ImmersClient)
    (fetchPlace : String → Except JsErr APPlace) (d : DestSpec)
    (hconn : c.connected = true)
    (hscope : c.authorizedScopes.contains SCOPES.postLocation = false) :
    c.exit = .ok (c, [.logInfo noAuthLog]) ∧
    c.move fetchPlace d = .ok (c, [.logInfo noAuthLog]) ∧
    c.enter fetchPlace none = .ok (c, [.logInfo noAuthLog]) ∧
    (∀ c2, c.setPlaceFromDestination fetchPlace d = .ok c2 →
      c.enter fetchPlace (some d) = .ok (c2, [.logInfo noAuthLog])) := by
  have hnot : SCOPES.postLocation ∉ c.authorizedScopes := by
    simpa using hscope
  refine ⟨?_, ?_, ?_, ?_⟩
  · simp [ImmersClient.exit, hconn, hnot]
  · simp [ImmersClient.move, hconn, hnot]
  · simp [ImmersClient.enter, hconn, hnot]
  · intro c2 hset
    rcases setPlace_preserves hset with ⟨h1, h2, h3⟩
    simp [ImmersClient.enter, hset, h1, h2, hconn, hnot]

/-- C9 (witness): the example logged-in client lacking the location scope
exits as a logged no-op. -/
theorem presence_scope_gating_witness :
    clientNoScope.exit = .ok (clientNoScope, [.logInfo noAuthLog]) :=
  (presence_scope_gating clientNoScope okFetchW (.place placeW) rfl (by decide)).1

/-- The shared store effect of the media builders: allocating the `slice()`
copy and appending the audience addresses to it leaves every pre-existing
array unchanged and puts exactly the appends on the fresh copy. -/
theorem addressAudience_after_alloc (self : Activities) (st : ArrStore)
    (v : List (Option String)) (aud : Option String) (r : Nat)
    (hr : r < st.arrs.length) :
    (self.addressAudience (st.alloc v).2 (st.alloc v).1 aud).get r = st.get r ∧
    (self.addressAudience (st.alloc v).2 (st.alloc v).1 aud).get st.arrs.length =
      v ++ audienceAppends self aud := by
  constructor
  · rw [Activities.get_addressAudience_ne _ _ _ _ _
      (show r ≠ (st.alloc v).1 from Nat.ne_of_lt hr)]
    exact ArrStore.get_alloc_lt st v r hr
  · have hlt : (st.alloc v).1 < (st.alloc v).2.arrs.length := by
      simp [ArrStore.alloc]
    show (self.addressAudience (st.alloc v).2 (st.alloc v).1 aud).get
      (st.alloc v).1 = v ++ audienceAppends self aud
    rw [Activities.get_addressAudience_self _ _ _ _ hlt, ArrStore.get_alloc_self]

/-- C10: the `note`, `image` and `video` builders copy the caller's `to`
array. Every array reference existing before the call (in particular the
caller's) refers to an unchanged array afterwards; the built object's `to`
is a fresh reference; and the followers / public-address audience entries
are appended only to that fresh copy of the caller's array. -/
theorem mediaBuilders_copy_to (self : Activities) (st : ArrStore)
    (content urlI urlV : String) (toRef r : Nat)
    (audience summary : Option String)
    (hr : r < st.arrs.length) :
    ((self.note st content toRef audience summary).2.get r = st.get r ∧
      (self.note st content toRef audience summary).1.toAddr = st.arrs.length ∧
      (self.note st content toRef audience summary).2.get st.arrs.length =
        st.get toRef ++ audienceAppends self audience) ∧
    ((self.image st urlI toRef audience summary).2.get r = st.get r ∧
      (self.image st urlI toRef audience summary).1.toAddr = st.arrs.length ∧
      (self.image st urlI toRef audience summary).2.get st.arrs.length =
        st.get toRef ++ audienceAppends self audience) ∧
    ((self.video st urlV toRef audience summary).2.get r = st.get r ∧
      (self.video st urlV toRef audience summary).1.toAddr = st.arrs.length ∧
      (self.video st urlV toRef audience summary).2.get st.arrs.length =
        st.get toRef ++ audienceAppends self audience) := by
  have h := addressAudience_after_alloc self st (st.get toRef) audience r hr
  exact ⟨⟨h.1, rfl, h.2⟩, ⟨h.1, rfl, h.2⟩, ⟨h.1, rfl, h.2⟩⟩

/-- C10 (witness): building a public note from the example one-array store
leaves the caller's array unchanged and appends the audience to the fresh
copy. -/
theorem mediaBuilders_copy_to_witness :
    ((selfW.note storeW "hi" 0 (some "public") none).2.get 0 = storeW.get 0 ∧
      (selfW.note storeW "hi" 0 (some "public") none).1.toAddr =
        storeW.arrs.length ∧
      (selfW.note storeW "hi" 0 (some "public") none).2.get storeW.arrs.length =
        storeW.get 0 ++ audienceAppends selfW (some "public")) ∧
    ((selfW.image storeW "https://img.example/a.png" 0 (some "public") none).2.get 0 =
        storeW.get 0 ∧
      (selfW.image storeW "https://img.example/a.png" 0 (some "public") none).1.toAddr =
        storeW.arrs.length ∧
      (selfW.image storeW "https://img.example/a.png" 0 (some "public") none).2.get
          storeW.arrs.length =
        storeW.get 0 ++ audienceAppends selfW (some "public")) ∧
    ((selfW.video storeW "https://vid.example/a.mp4" 0 (some "public") none).2.get 0 =
        storeW.get 0 ∧
      (selfW.video storeW "https://vid.example/a.mp4" 0 (some "public") none).1.toAddr =
        storeW.arrs.length ∧
      (selfW.video storeW "https://vid.example/a.mp4" 0 (some "public") none).2.get
          storeW.arrs.length =
        storeW.get 0 ++ audienceAppends selfW (some "public")) :=
  mediaBuilders_copy_to selfW storeW "hi" "https://img.example/a.png"
    "https://vid.example/a.mp4" 0 0 (some "public") none (by decide)
